import Mathlib

/-!
Verification development for the Gaussian-Bernoulli RBM trainer
(src/gaussian_rbm.py).

The file shallowly embeds the parts of the program that the checked
properties are about:

* Python numeric primitives (true division with ZeroDivisionError,
  int() truncation) over exact rationals;
* the learning-rate / momentum annealing schedule of
  GaussianRBM.train (lines 76-78 and 115-118);
* the per-batch weight update (lines 90-94);
* the Gibbs-sampling engine (lines 122-180), the hidden sampler
  (lines 200-219) and the average free energy (lines 229-236) over the
  reals, with the global numpy random stream made an explicit value;
* the constructor (lines 16-42) and the save/load persistence pair
  (lines 238-271) over an attribute-level view of the object in which
  a field may hold Python None.

Floating point is modelled by exact arithmetic (rationals for the
schedule and persistence layer, reals for the transcendental math);
this is the standard exact-semantics reading of the numeric code.
-/

/-! ## Python numeric primitives -/

/-- Exceptions that the embedded fragments of the program can raise. -/
inductive PyExc where
  | zeroDivisionError
  | valueError
  | attributeError
  | exception (msg : String)
  deriving DecidableEq

/-- Python int() applied to a float: truncation toward zero. -/
def pyInt (q : ℚ) : ℤ := if q < 0 then -⌊-q⌋ else ⌊q⌋

/-- Python float division: raises ZeroDivisionError on a zero divisor,
otherwise exact division. -/
def pyDivE (a b : ℚ) : Except PyExc ℚ :=
  if b = 0 then .error .zeroDivisionError else .ok (a / b)

theorem pyInt_eq_floor {q : ℚ} (h : 0 ≤ q) : pyInt q = ⌊q⌋ := by
  unfold pyInt
  exact if_neg (not_lt.mpr h)

theorem pyInt_natCast (n : ℕ) : pyInt (n : ℚ) = n := by
  rw [pyInt_eq_floor (by positivity)]
  exact Int.floor_natCast n

/-! ## Annealing schedule (train, lines 76-78 and 115-118)

Line 76 of the source computes
  alpha_update = int(max_epochs / (alpha / 0.01)) + 1
and line 78
  m_update = int(max_epochs / ((0.9 - m) / 0.01)) + 1.
-/

/-- Learning-rate decay interval, line 76 (total version: in the
program the divisor alpha / 0.01 is nonzero whenever alpha is). -/
def alphaUpdate (max_epochs : ℕ) (alpha : ℚ) : ℤ :=
  pyInt ((max_epochs : ℚ) / (alpha / (1 / 100))) + 1

/-- Momentum growth interval, line 78 (total version). -/
def mUpdate (max_epochs : ℕ) (m : ℚ) : ℤ :=
  pyInt ((max_epochs : ℚ) / ((9 / 10 - m) / (1 / 100))) + 1

/-- Lines 76-78 with Python division semantics: the two interval
computations in source order, each division checked for a zero
divisor. -/
def trainScheduleSetup (max_epochs : ℕ) (alpha m : ℚ) :
    Except PyExc (ℤ × ℤ) :=
  match pyDivE alpha (1 / 100) with
  | .error e => .error e
  | .ok d1 =>
    match pyDivE (max_epochs : ℚ) d1 with
    | .error e => .error e
    | .ok q1 =>
      match pyDivE (9 / 10 - m) (1 / 100) with
      | .error e => .error e
      | .ok d2 =>
        match pyDivE (max_epochs : ℚ) d2 with
        | .error e => .error e
        | .ok q2 => .ok (pyInt q1 + 1, pyInt q2 + 1)

/-- End-of-epoch learning-rate step, lines 117-118:
  if epoch % alpha_update == 0 and epoch > 0 and alpha > 0.01:
      alpha -= 0.01 -/
def alphaEpochUpdate (alpha_update : ℤ) (epoch : ℕ) (alpha : ℚ) : ℚ :=
  if (epoch : ℤ) % alpha_update = 0 ∧ 0 < epoch ∧ 1 / 100 < alpha then
    alpha - 1 / 100
  else alpha

/-- Value of alpha after the first e epochs of a run configured with
max_epochs and initial learning rate alpha0 (the interval is computed
once, from the initial value, before the epoch loop). -/
def alphaAfter (max_epochs e : ℕ) (alpha0 : ℚ) : ℚ :=
  (List.range e).foldl
    (fun a epoch => alphaEpochUpdate (alphaUpdate max_epochs alpha0) epoch a)
    alpha0

/-- Interval formula as written in the spec (for comparison with the
source formula): floor(max_epochs / ((alpha0 - 0.01) / 0.01)) + 1. -/
def specAlphaDecayInterval (max_epochs : ℕ) (alpha0 : ℚ) : ℤ :=
  ⌊(max_epochs : ℚ) / ((alpha0 - 1 / 100) / (1 / 100))⌋ + 1

/-- Stepping the learning rate keeps it a positive whole number of
hundredths when it starts as one: a decrement fires only above 0.01,
so it lands on the next lower hundredth, still at least 0.01. -/
theorem alphaEpochUpdate_hundredth (i : ℤ) (ep : ℕ) (a : ℚ) (k : ℕ)
    (hk : 1 ≤ k) (ha : a = (k : ℚ) / 100) :
    ∃ k2 : ℕ, 1 ≤ k2 ∧ alphaEpochUpdate i ep a = (k2 : ℚ) / 100 := by
  unfold alphaEpochUpdate
  split
  · next hcond =>
    obtain ⟨-, -, hgt⟩ := hcond
    rw [ha] at hgt ⊢
    have hk1 : (1 : ℚ) < (k : ℚ) := by linarith
    have hk2 : 2 ≤ k := by exact_mod_cast hk1
    refine ⟨k - 1, by omega, ?_⟩
    rw [Nat.cast_sub (by omega : 1 ≤ k)]
    ring
  · exact ⟨k, hk, ha⟩

/-- Folding the per-epoch step over any list of epoch indices
preserves the positive-whole-hundredths form of the learning rate. -/
theorem alphaFold_hundredth (i : ℤ) (l : List ℕ) (a : ℚ) (k : ℕ)
    (hk : 1 ≤ k) (ha : a = (k : ℚ) / 100) :
    ∃ k2 : ℕ, 1 ≤ k2 ∧
      l.foldl (fun a ep => alphaEpochUpdate i ep a) a = (k2 : ℚ) / 100 := by
  induction l generalizing a k with
  | nil => exact ⟨k, hk, ha⟩
  | cons ep rest ih =>
    obtain ⟨k2, hk2, hstep⟩ := alphaEpochUpdate_hundredth i ep a k hk ha
    simp only [List.foldl_cons]
    exact ih (alphaEpochUpdate i ep a) k2 hk2 hstep

/-! ## Model state and the Gibbs-sampling engine (lines 10-42, 122-180)

The mathematical layer works over the reals with exact semantics.
Arrays are total functions on Fin-indexed shapes; the numpy global
random stream is an explicit value: a call counter together with the
uniform draws (np.random.rand) and the standard-normal draws behind
np.random.normal, indexed by call number and array position. -/

/-- Shape-indexed real array, row index first (numpy convention). -/
abbrev Mat (m n : ℕ) := Fin m → Fin n → ℝ

/-- Learned parameters and diagnostic state of a GaussianRBM object
(fields of self set by __init__ and mutated by train). last_velocity
is initialized to the scalar 0.0 in the source and numpy-broadcast on
first use; it is modelled at its broadcast shape. -/
structure GaussianRBM (num_visible num_hidden : ℕ) where
  W : Mat num_visible num_hidden
  h_bias : Fin num_hidden → ℝ
  v_bias : Fin num_visible → ℝ
  v_sigma : Fin num_visible → ℝ
  last_velocity : Mat num_visible num_hidden
  costs : List ℝ
  train_free_energies : List ℝ
  validation_free_energies : List ℝ

/-- Explicit view of the numpy global random stream: t counts calls
already made; urand t is the array produced by the t-th call when it
is np.random.rand, nrand t the standard-normal array behind the t-th
call when it is np.random.normal. -/
structure RandState where
  t : ℕ
  urand : ℕ → ℕ → ℕ → ℝ
  nrand : ℕ → ℕ → ℕ → ℝ

/-- Advance the stream past one numpy sampling call. -/
def RandState.next (r : RandState) : RandState :=
  { r with t := r.t + 1 }

noncomputable section

/-- Sigmoid, hidden_act_func (lines 225-227). -/
def hidden_act_func (x : ℝ) : ℝ := 1 / (1 + Real.exp (-x))

/-- Hidden activations of the training engine (lines 137, 153, 164):
np.dot(V / np.square(self.v_sigma), self.W) + self.h_bias. -/
def h_activations {nv nh B : ℕ} (s : GaussianRBM nv nh) (V : Mat B nv) :
    Mat B nh :=
  fun b j => (∑ i, (V b i / (s.v_sigma i) ^ 2) * s.W i j) + s.h_bias j

/-- Hidden probabilities the engine derives from a visible batch. -/
def gibbs_h_probs {nv nh B : ℕ} (s : GaussianRBM nv nh) (V : Mat B nv) :
    Mat B nh :=
  fun b j => hidden_act_func (h_activations s V b j)

/-- Bernoulli states from probabilities and one uniform array:
(probs > rand).astype(int), as the 0/1 reals the subsequent numpy
arithmetic sees. -/
def sampleStates {B H : ℕ} (probs rnd : Mat B H) : Mat B H :=
  fun b j => if rnd b j < probs b j then 1 else 0

/-- Row-rescaling loop applied to an association matrix before the
return (lines 173-176): for i in xrange(shape[0] - 1), row i is
divided in place by cst[i]; rows at index shape[0] - 1 and beyond the
loop bound keep their value. Stated over any division ring so it can
also be evaluated exactly over the rationals. -/
def rescaleAssoc {α : Type} [Div α] {nv nh : ℕ} (cst : Fin nv → α)
    (A : Fin nv → Fin nh → α) : Fin nv → Fin nh → α :=
  fun i j => if (i : ℕ) < nv - 1 then A i j / cst i else A i j

/-- Modelled from the spec: the rescaling the claim describes, every
visible row (the last included) multiplied by the factor
1 / v_sigma(i)^2 = cst i. Used only for comparison with rescaleAssoc. -/
def specRescaleAllRows {α : Type} [Mul α] {nv nh : ℕ} (cst : Fin nv → α)
    (A : Fin nv → Fin nh → α) : Fin nv → Fin nh → α :=
  fun i j => cst i * A i j

/-- Values returned by gibbs_sampling (lines 177-180). -/
structure GibbsOutputs (B nv nh : ℕ) where
  associations_delta : Mat nv nh
  h_bias_delta : Mat B nh
  v_values_new : Mat B nv
  h_probs_new : Mat B nh

/-- Loop-carried values of the chain: the current reconstruction (the
rebound v_in_0), the hidden probabilities of the last negative phase,
the last negative association matrix, and the random stream. -/
structure GibbsAcc (B nv nh : ℕ) where
  v_values : Mat B nv
  h_probs_new : Mat B nh
  neg_associations : Mat nv nh
  rand : RandState

/-- Second half of one chain step (lines 159-172): reconstruct the
visible units from hidden states (Gaussian sample around
np.dot(h_states, W.T) + v_bias with scale v_sigma), sample the hidden
layer again from the reconstruction, and form the negative
associations. -/
def gibbsNegPhase {nv nh B : ℕ} (s : GaussianRBM nv nh)
    (h_states : Mat B nh) (r : RandState) : GibbsAcc B nv nh :=
  let v_activations : Mat B nv :=
    fun b i => (∑ j, h_states b j * s.W i j) + s.v_bias i
  let v_values : Mat B nv :=
    fun b i => v_activations b i + s.v_sigma i * r.nrand r.t b i
  let r1 := r.next
  let h_probs_new := gibbs_h_probs s v_values
  let h_states_new := sampleStates h_probs_new (fun b j => r1.urand r1.t b j)
  { v_values := v_values
    h_probs_new := h_probs_new
    neg_associations := fun i j => ∑ b, v_values b i * h_states_new b j
    rand := r1.next }

/-- Chain steps after the first (lines 149-172): each remaining step
recomputes the hidden layer from the current reconstruction and runs
the negative phase again. -/
def gibbsLoopRest {nv nh B : ℕ} (s : GaussianRBM nv nh) :
    ℕ → GibbsAcc B nv nh → GibbsAcc B nv nh
  | 0, acc => acc
  | n + 1, acc =>
    let h_probs := gibbs_h_probs s acc.v_values
    let h_states :=
      sampleStates h_probs (fun b j => acc.rand.urand acc.rand.t b j)
    gibbsLoopRest s n (gibbsNegPhase s h_states acc.rand.next)

/-- gibbs_sampling (lines 122-180). The method reads self but assigns
no attribute, so the object is returned alongside the outputs and the
advanced random stream; with k = 0 the Python loop body never runs and
the return statement raises a NameError (neg_associations is unbound),
after the positive-phase draw has already consumed one random call. -/
def gibbs_sampling {nv nh B : ℕ} (s : GaussianRBM nv nh) (v_in_0 : Mat B nv)
    (k : ℕ) (r : RandState) :
    Except PyExc (GibbsOutputs B nv nh) × GaussianRBM nv nh × RandState :=
  let h_probs_0 := gibbs_h_probs s v_in_0
  let h_states_0 := sampleStates h_probs_0 (fun b j => r.urand r.t b j)
  let r1 := r.next
  let pos_associations : Mat nv nh :=
    fun i j => ∑ b, v_in_0 b i * h_states_0 b j
  match k with
  | 0 => (.error (.exception "NameError: neg_associations"), s, r1)
  | n + 1 =>
    let acc := gibbsLoopRest s n (gibbsNegPhase s h_states_0 r1)
    let cst := fun i => 1 / (s.v_sigma i) ^ 2
    (.ok { associations_delta :=
             fun i j => rescaleAssoc cst pos_associations i j -
               rescaleAssoc cst acc.neg_associations i j
           h_bias_delta := fun b j => h_probs_0 b j - acc.h_probs_new b j
           v_values_new := acc.v_values
           h_probs_new := acc.h_probs_new },
     s, acc.rand)

/-- Hidden activations of sample_hidden_from_visible (line 215):
np.dot(v, self.W) + self.h_bias, with no division by v_sigma squared. -/
def sample_hidden_activations {nv nh B : ℕ} (s : GaussianRBM nv nh)
    (v : Mat B nv) : Mat B nh :=
  fun b j => (∑ i, v b i * s.W i j) + s.h_bias j

/-- Hidden probabilities of sample_hidden_from_visible. -/
def sample_h_probs {nv nh B : ℕ} (s : GaussianRBM nv nh) (v : Mat B nv) :
    Mat B nh :=
  fun b j => hidden_act_func (sample_hidden_activations s v b j)

/-- sample_hidden_from_visible (lines 200-219): probabilities and a
Bernoulli sample of the hidden units, one uniform draw. The
batch_size argument of the source only fixes the shape of that draw,
which the types carry here. -/
def sample_hidden_from_visible {nv nh B : ℕ} (s : GaussianRBM nv nh)
    (v : Mat B nv) (r : RandState) : (Mat B nh × Mat B nh) × RandState :=
  let h_probs := sample_h_probs s v
  let h_states := sampleStates h_probs (fun b j => r.urand r.t b j)
  ((h_probs, h_states), r.next)

/-- average_free_energy (lines 229-236). -/
def average_free_energy {nv nh B : ℕ} (s : GaussianRBM nv nh)
    (data : Mat B nv) : ℝ :=
  let wx_b : Mat B nh :=
    fun b j => (∑ i, data b i * s.W i j) + s.h_bias j
  let vbias_term : Fin B → ℝ := fun b => ∑ i, data b i * s.v_bias i
  let hidden_term : Fin B → ℝ :=
    fun b => ∑ j, Real.log (1 + Real.exp (wx_b b j))
  (∑ b, (-hidden_term b - vbias_term b)) / (B : ℝ)

/-- Per-batch weight velocity, lines 90-92:
  deltaW = alpha * (associations_delta / float(batch_size))
         + m * self.last_velocity. -/
def deltaW {nv nh : ℕ} (alpha m : ℝ) (associations_delta : Mat nv nh)
    (batch_size : ℕ) (last_velocity : Mat nv nh) : Mat nv nh :=
  fun i j => alpha * (associations_delta i j / (batch_size : ℝ)) +
    m * last_velocity i j

/-- Weight-update portion of the batch step, lines 90-94: W is
incremented by deltaW and last_velocity is set to deltaW; the pair
(new W, new last_velocity) is returned. -/
def trainWeightStep {nv nh : ℕ} (W last_velocity : Mat nv nh)
    (associations_delta : Mat nv nh) (alpha m : ℝ) (batch_size : ℕ) :
    Mat nv nh × Mat nv nh :=
  (fun i j => W i j + deltaW alpha m associations_delta batch_size last_velocity i j,
   deltaW alpha m associations_delta batch_size last_velocity)

end

/-! ## Attribute-level view: constructor and persistence
(lines 16-42 and 238-271)

The constructor and the save/load pair manipulate the object at the
level of Python attributes: a field can hold None, and load can change
the stored shapes. Numeric data here consists of Python floats, which
are (dyadic) rationals, so this layer stays computable over ℚ. -/

/-- Python value distinguishing None from a bool, as needed by the
expression any([...]) is None on line 22. -/
inductive PyVal where
  | none
  | bool (b : Bool)
  deriving DecidableEq

/-- Python is None test on such a value. -/
def pyIsNone : PyVal → Bool
  | .none => true
  | .bool _ => false

/-- Truthiness of an optional numpy vector argument: None is falsy; an
empty array is falsy; a one-element array has the truth value of its
element; bool() of an array with more than one element raises
ValueError (truth value of an array is ambiguous). -/
def npBool : Option (List ℚ) → Except PyExc Bool
  | Option.none => .ok false
  | some [] => .ok false
  | some [x] => .ok (if x = 0 then false else true)
  | some (_ :: _ :: _) => .error .valueError

/-- Python any() over already-delimited truth tests: returns a bool
object, stopping at the first true test, propagating the first raise. -/
def pyAny : List (Except PyExc Bool) → Except PyExc PyVal
  | [] => .ok (.bool false)
  | x :: rest =>
    match x with
    | .error e => .error e
    | .ok true => .ok (.bool true)
    | .ok false => pyAny rest

/-- Attribute-level state of a GaussianRBM object. last_velocity is
the scalar 0.0 set by __init__ (train, not modelled at this layer,
later rebinds it to an array). -/
structure GaussianRBMFields where
  num_visible : ℕ
  num_hidden : ℕ
  W : Option (List (List ℚ))
  h_bias : Option (List ℚ)
  v_bias : Option (List ℚ)
  v_sigma : Option (List ℚ)
  costs : List ℚ
  train_free_energies : List ℚ
  validation_free_energies : List ℚ
  last_velocity : ℚ
  deriving DecidableEq

/-- Message of the exception raised on line 23. -/
def initExcMessage : String := "If W is None, then also b and c must be None"

/-- Line 22 guard: W is None and any([h_bias, v_bias]) is None.
The and short-circuits, so any() is only evaluated when W is None. -/
def initCheck (W : Option (List (List ℚ))) (h_bias v_bias : Option (List ℚ)) :
    Except PyExc Bool :=
  if W.isNone then
    match pyAny [npBool h_bias, npBool v_bias] with
    | .error e => .error e
    | .ok v => .ok (pyIsNone v)
  else .ok false

/-- GaussianRBM.__init__ (lines 16-42). randW stands for the random
weight matrix 0.1 * np.random.randn(num_visible, num_hidden) drawn in
the fresh branch. When W is given, the three other optional arguments
are stored as passed, None included. -/
def gaussianRBMInit (num_visible num_hidden : ℕ) (randW : List (List ℚ))
    (W : Option (List (List ℚ))) (h_bias v_bias v_sigma : Option (List ℚ)) :
    Except PyExc GaussianRBMFields :=
  match initCheck W h_bias v_bias with
  | .error e => .error e
  | .ok true => .error (.exception initExcMessage)
  | .ok false =>
    if W.isNone then
      .ok { num_visible := num_visible
            num_hidden := num_hidden
            W := some randW
            h_bias := some (List.replicate num_hidden 1)
            v_bias := some (List.replicate num_visible 1)
            v_sigma := some (List.replicate num_visible 1)
            costs := []
            train_free_energies := []
            validation_free_energies := []
            last_velocity := 0 }
    else
      .ok { num_visible := num_visible
            num_hidden := num_hidden
            W := W
            h_bias := h_bias
            v_bias := v_bias
            v_sigma := v_sigma
            costs := []
            train_free_energies := []
            validation_free_energies := []
            last_velocity := 0 }

/-- Record written by save_configuration (lines 238-254): exactly the
eight keys of the json object; v_sigma has no key. -/
structure RBMRecord where
  W : List (List ℚ)
  h_bias : List ℚ
  v_bias : List ℚ
  num_hidden : ℕ
  num_visible : ℕ
  costs : List ℚ
  train_free_energies : List ℚ
  validation_free_energies : List ℚ
  deriving DecidableEq

/-- save_configuration (lines 238-254): serializes the eight fields;
tolist() on a None field would raise AttributeError. -/
def save_configuration (s : GaussianRBMFields) : Except PyExc RBMRecord :=
  match s.W, s.h_bias, s.v_bias with
  | some w, some hb, some vb =>
    .ok { W := w
          h_bias := hb
          v_bias := vb
          num_hidden := s.num_hidden
          num_visible := s.num_visible
          costs := s.costs
          train_free_energies := s.train_free_energies
          validation_free_energies := s.validation_free_energies }
  | _, _, _ => .error .attributeError

/-- load_configuration (lines 256-271): overwrites the eight persisted
attributes from the record; v_sigma and last_velocity are not touched. -/
def load_configuration (s : GaussianRBMFields) (r : RBMRecord) :
    GaussianRBMFields :=
  { s with
    W := some r.W
    h_bias := some r.h_bias
    v_bias := some r.v_bias
    num_hidden := r.num_hidden
    num_visible := r.num_visible
    costs := r.costs
    train_free_energies := r.train_free_energies
    validation_free_energies := r.validation_free_energies }

/-! ## Claim theorems -/

/-- Association-row constant and matrix for the boundary check of the
rescaling loop: one visible unit with v_sigma = 2, so
cst 0 = 1 / v_sigma^2 = 1/4, and a positive association of 1. -/
def c1cst : Fin 1 → ℚ := fun _ => 1 / 4

/-- One-visible-unit association matrix with single entry 1. -/
def c1assoc : Fin 1 → Fin 1 → ℚ := fun _ _ => 1

/-- C1: with num_visible = 1 the loop of lines 174-176 runs
xrange(0) times, so the only (hence last) association row reaches the
return unrescaled, while the claimed rescaling by 1 / v_sigma^2 would
multiply it by cst 0 = 1/4: the code and the claimed behaviour differ
at this input. -/
theorem C1_last_row_not_rescaled :
    rescaleAssoc c1cst c1assoc 0 0 = 1 ∧
    specRescaleAllRows c1cst c1assoc 0 0 = 1 / 4 ∧
    rescaleAssoc c1cst c1assoc 0 0 ≠ specRescaleAllRows c1cst c1assoc 0 0 := by
  refine ⟨rfl, by norm_num [specRescaleAllRows, c1cst, c1assoc], ?_⟩
  norm_num [rescaleAssoc, specRescaleAllRows, c1cst, c1assoc]

/-- C2 counterexample: at alpha0 = 0.1, max_epochs = 100 the interval
the code computes (11) differs from the interval the claim states
(12). -/
theorem C2_interval_counterexample :
    alphaUpdate 100 (1 / 10) = 11 ∧ specAlphaDecayInterval 100 (1 / 10) = 12 ∧
    (11 : ℤ) ≠ 12 := by
  refine ⟨by norm_num [alphaUpdate, pyInt], ?_, by norm_num⟩
  norm_num [specAlphaDecayInterval]

/-- C2 amended: the decay interval equals
floor(max_epochs / (alpha0 / 0.01)) + 1 (the code divides by
alpha0 / 0.01, not by (alpha0 - 0.01) / 0.01), and alpha is decreased
by exactly 0.01 at an epoch that is a nonzero multiple of the interval
while alpha exceeds 0.01. -/
theorem C2_interval_amended (me ep : ℕ) (a x : ℚ) (h : 0 < a)
    (h1 : (ep : ℤ) % alphaUpdate me a = 0) (h2 : 0 < ep)
    (h3 : 1 / 100 < x) :
    alphaUpdate me a = ⌊(me : ℚ) / (a / (1 / 100))⌋ + 1 ∧
    alphaEpochUpdate (alphaUpdate me a) ep x = x - 1 / 100 := by
  constructor
  · have hq : (0 : ℚ) ≤ (me : ℚ) / (a / (1 / 100)) := by positivity
    rw [alphaUpdate, pyInt_eq_floor hq]
  · rw [alphaEpochUpdate, if_pos ⟨h1, h2, h3⟩]

/-- C2 amended witness at max_epochs = 100, alpha0 = 0.1, epoch 11. -/
theorem C2_interval_amended_witness :
    alphaUpdate 100 (1 / 10) = ⌊((100 : ℕ) : ℚ) / ((1 / 10) / (1 / 100))⌋ + 1 ∧
    alphaEpochUpdate (alphaUpdate 100 (1 / 10)) 11 (1 / 10) = 1 / 10 - 1 / 100 :=
  C2_interval_amended 100 11 (1 / 10) (1 / 10) (by norm_num)
    (by norm_num [alphaUpdate, pyInt]) (by norm_num) (by norm_num)

/-- C4 counterexample: with alpha0 = 0.015 (which exceeds 0.01) and
max_epochs = 10, the interval is 7 and the decrement at epoch 7 takes
alpha to 0.005, strictly below the claimed floor of 0.01. -/
theorem C4_floor_counterexample :
    (1 / 100 : ℚ) < 3 / 200 ∧ alphaAfter 10 10 (3 / 200) = 1 / 200 ∧
    (1 / 200 : ℚ) < 1 / 100 := by
  refine ⟨by norm_num, ?_, by norm_num⟩
  have h0 : alphaUpdate 10 (3 / 200) = 7 := by norm_num [alphaUpdate, pyInt]
  have hr : List.range 10 = [0, 1, 2, 3, 4, 5, 6, 7, 8, 9] := rfl
  rw [alphaAfter, hr]
  simp only [h0, List.foldl]
  norm_num [alphaEpochUpdate]

/-- C4 amended: when the initial learning rate is a positive whole
number of hundredths (as the default 0.1 is), alpha stays at or above
0.01 at every epoch boundary of every run; for other initial values
the guard alpha > 0.01 can fire at alpha < 0.02 and step below the
floor. -/
theorem C4_floor_amended (me e k : ℕ) (h : 1 ≤ k) :
    1 / 100 ≤ alphaAfter me e ((k : ℚ) / 100) := by
  obtain ⟨k2, hk2, hval⟩ :=
    alphaFold_hundredth (alphaUpdate me ((k : ℚ) / 100)) (List.range e)
      ((k : ℚ) / 100) k h rfl
  rw [alphaAfter, hval]
  have hc : (1 : ℚ) ≤ (k2 : ℚ) := by exact_mod_cast hk2
  linarith

/-- C4 amended witness: a 300-epoch run from the default alpha0 = 0.1. -/
theorem C4_floor_amended_witness :
    1 / 100 ≤ alphaAfter 300 300 (((10 : ℕ) : ℚ) / 100) :=
  C4_floor_amended 300 300 10 (by norm_num)

/-- C7 counterexample: at alpha0 = 0.01 the learning-rate divisor is
alpha0 / 0.01 = 1, not zero, and the setup succeeds with interval
max_epochs + 1 = 101 (no error of any kind is signalled); at m0 = 0.9
the momentum divisor is zero and the computation fails with a bare
ZeroDivisionError, which is not the claimed descriptive configuration
error. -/
theorem C7_guard_counterexample :
    trainScheduleSetup 100 (1 / 100) (1 / 2) = .ok (101, 3) ∧
    trainScheduleSetup 100 (1 / 10) (9 / 10) = .error .zeroDivisionError := by
  constructor
  · norm_num [trainScheduleSetup, pyDivE, pyInt]
  · norm_num [trainScheduleSetup, pyDivE, pyInt]

/-- C7 amended: train has no guard on the interval divisors. With
m0 = 0.9 (and any nonzero alpha0) the momentum-interval division
raises an unhandled ZeroDivisionError; with alpha0 = 0.01 the
learning-rate divisor equals 1 and the setup returns the intervals
(max_epochs + 1, int(max_epochs / 40) + 1) without any error. -/
theorem C7_guard_amended (me : ℕ) (alpha : ℚ) (h : alpha ≠ 0) :
    trainScheduleSetup me alpha (9 / 10) = .error .zeroDivisionError ∧
    trainScheduleSetup me (1 / 100) (1 / 2) =
      .ok ((me : ℤ) + 1, pyInt ((me : ℚ) / 40) + 1) := by
  constructor
  · have e1 : pyDivE alpha (1 / 100) = .ok (alpha / (1 / 100)) := by
      rw [pyDivE, if_neg (by norm_num : ¬(1 / 100 : ℚ) = 0)]
    have hne : alpha / (1 / 100) ≠ 0 := div_ne_zero h (by norm_num)
    have e2 : pyDivE (me : ℚ) (alpha / (1 / 100)) =
        .ok ((me : ℚ) / (alpha / (1 / 100))) := by
      rw [pyDivE, if_neg hne]
    have e3 : pyDivE (9 / 10 - 9 / 10) (1 / 100) = .ok 0 := by
      rw [pyDivE, if_neg (by norm_num : ¬(1 / 100 : ℚ) = 0)]
      norm_num
    have e4 : pyDivE (me : ℚ) 0 = .error .zeroDivisionError := by
      rw [pyDivE, if_pos rfl]
    simp only [trainScheduleSetup, e1, e2, e3, e4]
  · have f1 : pyDivE (1 / 100) (1 / 100) = .ok 1 := by
      rw [pyDivE, if_neg (by norm_num : ¬(1 / 100 : ℚ) = 0)]
      norm_num
    have f2 : pyDivE (me : ℚ) 1 = .ok (me : ℚ) := by
      rw [pyDivE, if_neg one_ne_zero]
      norm_num
    have f3 : pyDivE (9 / 10 - 1 / 2) (1 / 100) = .ok 40 := by
      rw [pyDivE, if_neg (by norm_num : ¬(1 / 100 : ℚ) = 0)]
      norm_num
    have f4 : pyDivE (me : ℚ) 40 = .ok ((me : ℚ) / 40) := by
      rw [pyDivE, if_neg (by norm_num : ¬(40 : ℚ) = 0)]
    simp only [trainScheduleSetup, f1, f2, f3, f4, pyInt_natCast]

/-- C7 amended witness at max_epochs = 100, alpha0 = 0.1. -/
theorem C7_guard_amended_witness :
    trainScheduleSetup 100 (1 / 10) (9 / 10) = .error .zeroDivisionError ∧
    trainScheduleSetup 100 (1 / 100) (1 / 2) =
      .ok (((100 : ℕ) : ℤ) + 1, pyInt (((100 : ℕ) : ℚ) / 40) + 1) :=
  C7_guard_amended 100 (1 / 10) (by norm_num)

noncomputable section

/-- C5: the per-batch weight update is
deltaW = alpha * (associations_delta / batch_size) + m * last_velocity
with W incremented by deltaW and last_velocity set to deltaW, so with
m = 0 it is plain gradient ascent: both returned components carry
alpha * (associations_delta / batch_size) with no momentum term. -/
theorem C5_momentum_zero {nv nh : ℕ} (W lv assoc : Mat nv nh)
    (alpha m : ℝ) (batch_size : ℕ) (h : m = 0) :
    trainWeightStep W lv assoc alpha m batch_size =
      (fun i j => W i j + alpha * (assoc i j / (batch_size : ℝ)),
       fun i j => alpha * (assoc i j / (batch_size : ℝ))) := by
  subst h
  unfold trainWeightStep deltaW
  simp only [Prod.mk.injEq]
  constructor <;> funext i j <;> ring

/-- Concrete 1-by-1 matrix for the momentum witness. -/
def c5mat : Mat 1 1 := fun _ _ => 1

/-- C5 witness: the zero-momentum update at a concrete batch. -/
theorem C5_momentum_zero_witness :
    trainWeightStep c5mat c5mat c5mat 2 0 2 =
      (fun i j => c5mat i j + 2 * (c5mat i j / ((2 : ℕ) : ℝ)),
       fun i j => 2 * (c5mat i j / ((2 : ℕ) : ℝ))) :=
  C5_momentum_zero c5mat c5mat c5mat 2 0 2 rfl

/-- Golden-value model for the free energy: 2 visible units, 1 hidden
unit, all parameters zero (v_sigma = 1, unused by the free energy). -/
def c6s : GaussianRBM 2 1 :=
  { W := fun _ _ => 0
    h_bias := fun _ => 0
    v_bias := fun _ => 0
    v_sigma := fun _ => 1
    last_velocity := fun _ _ => 0
    costs := []
    train_free_energies := []
    validation_free_energies := [] }

/-- Single all-zeros data row for the free-energy golden value. -/
def c6data : Mat 1 2 := fun _ _ => 0

/-- C6: average_free_energy is the mean over data rows of minus the
row-wise softplus sum of data.W + h_bias minus the row-wise dot
product data.v_bias, and at the golden input (W = 0, zero biases,
data = [[0, 0]]) it equals -log 2. -/
theorem C6_free_energy :
    (∀ (B nv nh : ℕ) (s : GaussianRBM nv nh) (data : Mat B nv),
      average_free_energy s data =
        (∑ b, (-(∑ j, Real.log (1 + Real.exp ((∑ i, data b i * s.W i j) +
          s.h_bias j))) - ∑ i, data b i * s.v_bias i)) / (B : ℝ)) ∧
    average_free_energy c6s c6data = -Real.log 2 := by
  constructor
  · intro B nv nh s data
    rfl
  · simp [average_free_energy, c6s, c6data, Real.exp_zero,
      Fin.sum_univ_one, Fin.sum_univ_two]
    norm_num

/-- C9: gibbs_sampling assigns no attribute of self: the model state
in the returned triple is the input state, whatever the batch, the
step count (including the k = 0 NameError path) and the random
stream; only the stream advances. -/
theorem C9_gibbs_frame {nv nh B : ℕ} (s : GaussianRBM nv nh)
    (v_in_0 : Mat B nv) (k : ℕ) (r : RandState) :
    (gibbs_sampling s v_in_0 k r).2.1 = s := by
  cases k <;> rfl

/-- Sigmoid is injective, so distinct activations give distinct
probabilities. -/
theorem hidden_act_func_injective : Function.Injective hidden_act_func := by
  intro a b h
  unfold hidden_act_func at h
  have ha : (0 : ℝ) < 1 + Real.exp (-a) := by positivity
  have hb : (0 : ℝ) < 1 + Real.exp (-b) := by positivity
  rw [div_eq_div_iff ha.ne' hb.ne'] at h
  have hexp : Real.exp (-a) = Real.exp (-b) := by linarith
  have := Real.exp_injective hexp
  linarith

/-- Model with v_sigma = 2 (not identically 1) but W = 0: the two
hidden-activation rules then agree on every input. -/
def c10zeroRBM : GaussianRBM 1 1 :=
  { W := fun _ _ => 0
    h_bias := fun _ => 0
    v_bias := fun _ => 0
    v_sigma := fun _ => 2
    last_velocity := fun _ _ => 0
    costs := []
    train_free_energies := []
    validation_free_energies := [] }

/-- Model with v_sigma = 2 and W = 1, where the two rules disagree. -/
def c10RBM : GaussianRBM 1 1 :=
  { W := fun _ _ => 1
    h_bias := fun _ => 0
    v_bias := fun _ => 0
    v_sigma := fun _ => 2
    last_velocity := fun _ _ => 0
    costs := []
    train_free_energies := []
    validation_free_energies := [] }

/-- Input batch of a single visible value 1. -/
def c10input : Mat 1 1 := fun _ _ => 1

/-- C10 counterexample: a model whose v_sigma is not identically 1
(v_sigma = 2) on which sample_hidden_from_visible and the engine
produce the same hidden probabilities on the same input, because
W = 0 makes the missing division by v_sigma^2 invisible: the claimed
difference does not hold for every such model. -/
theorem C10_counterexample :
    c10zeroRBM.v_sigma 0 ≠ 1 ∧
    sample_h_probs c10zeroRBM c10input = gibbs_h_probs c10zeroRBM c10input := by
  constructor
  · norm_num [c10zeroRBM]
  · funext b j
    simp [sample_h_probs, gibbs_h_probs, sample_hidden_activations,
      h_activations, c10zeroRBM, c10input]

/-- C10 amended: sample_hidden_from_visible computes its activations
as v.W + h_bias with no division of the input by v_sigma^2, and its
hidden probabilities differ from the engine's exactly at entries where
the two activations differ, which happens for some but not every
model with v_sigma not identically 1. -/
theorem C10_amended {nv nh B : ℕ} (s : GaussianRBM nv nh) (v : Mat B nv)
    (b : Fin B) (j : Fin nh)
    (h : sample_hidden_activations s v b j ≠ h_activations s v b j) :
    sample_h_probs s v b j =
      hidden_act_func ((∑ i, v b i * s.W i j) + s.h_bias j) ∧
    sample_h_probs s v b j ≠ gibbs_h_probs s v b j :=
  ⟨rfl, fun he => h (hidden_act_func_injective he)⟩

/-- C10 amended witness: with v_sigma = 2, W = 1, input 1 the sampler
activation is 1 while the engine activation is 1/4, so the hidden
probabilities differ. -/
theorem C10_amended_witness :
    sample_h_probs c10RBM c10input 0 0 =
      hidden_act_func ((∑ i, c10input 0 i * c10RBM.W i 0) + c10RBM.h_bias 0) ∧
    sample_h_probs c10RBM c10input 0 0 ≠ gibbs_h_probs c10RBM c10input 0 0 :=
  C10_amended c10RBM c10input 0 0 (by
    simp [sample_hidden_activations, h_activations, c10RBM, c10input]
    norm_num)

end

/-- Every truth test of an optional vector either raises the ambiguity
ValueError or yields a bool. -/
theorem npBool_shape (x : Option (List ℚ)) :
    npBool x = .error .valueError ∨ ∃ b, npBool x = .ok b := by
  rcases x with _ | (_ | ⟨a, _ | ⟨c, l⟩⟩)
  · exact .inr ⟨false, rfl⟩
  · exact .inr ⟨false, rfl⟩
  · exact .inr ⟨if a = 0 then false else true, rfl⟩
  · exact .inl rfl

/-- Python any() over tests that can only raise ValueError either
yields a bool object (never the None object) or raises ValueError. -/
theorem pyAny_cases (xs : List (Except PyExc Bool))
    (hxs : ∀ x ∈ xs, x = .error .valueError ∨ ∃ b, x = .ok b) :
    (∃ b, pyAny xs = .ok (.bool b)) ∨ pyAny xs = .error .valueError := by
  induction xs with
  | nil => exact .inl ⟨false, rfl⟩
  | cons x rest ih =>
    rcases hxs x (by simp) with hx | ⟨b, hx⟩
    · right
      simp [pyAny, hx]
    · cases b
      · have hrest := ih (fun y hy => hxs y (by simp [hy]))
        simpa [pyAny, hx] using hrest
      · exact .inl ⟨true, by simp [pyAny, hx]⟩

/-- The line 22 guard never evaluates to a raise request: any() returns
a bool object, and a bool is never the None object, so the comparison
with None is always False; the only failure it can produce is the
ValueError of an ambiguous array truth test. -/
theorem initCheck_cases (W : Option (List (List ℚ)))
    (h_bias v_bias : Option (List ℚ)) :
    initCheck W h_bias v_bias = .ok false ∨
    initCheck W h_bias v_bias = .error .valueError := by
  unfold initCheck
  rcases hW : W.isNone with _ | _
  · simp
  · have hs : ∀ x ∈ [npBool h_bias, npBool v_bias],
        x = .error .valueError ∨ ∃ b, x = .ok b := by
      intro x hx
      simp only [List.mem_cons, List.not_mem_nil, or_false] at hx
      rcases hx with rfl | rfl
      · exact npBool_shape h_bias
      · exact npBool_shape v_bias
    rcases pyAny_cases [npBool h_bias, npBool v_bias] hs with ⟨b, hb⟩ | hb
    · left
      simp [hb, pyIsNone]
    · right
      simp [hb]

/-- C3: the constructor never raises its documented configuration
exception, because the guard compares the bool returned by any() with
None. With W supplied and h_bias omitted it returns normally with
h_bias stored as None (the failure surfaces only at first use); with
W omitted and biases supplied it returns the fresh randomly
initialized state, silently discarding the supplied biases. -/
theorem C3_init_never_raises :
    (∀ (nv nh : ℕ) (randW : List (List ℚ)) (W : Option (List (List ℚ)))
        (hb vb vs : Option (List ℚ)),
      gaussianRBMInit nv nh randW W hb vb vs ≠
        .error (.exception initExcMessage)) ∧
    gaussianRBMInit 1 1 [[0]] (some [[5]]) Option.none (some [1]) (some [1]) =
      .ok { num_visible := 1, num_hidden := 1, W := some [[5]],
            h_bias := Option.none, v_bias := some [1], v_sigma := some [1],
            costs := [], train_free_energies := [],
            validation_free_energies := [], last_velocity := 0 } ∧
    gaussianRBMInit 1 1 [[0]] Option.none (some [1]) (some [1]) Option.none =
      .ok { num_visible := 1, num_hidden := 1, W := some [[0]],
            h_bias := some [1], v_bias := some [1], v_sigma := some [1],
            costs := [], train_free_energies := [],
            validation_free_energies := [], last_velocity := 0 } := by
  refine ⟨?_, ?_, ?_⟩
  · intro nv nh randW W hb vb vs
    unfold gaussianRBMInit
    rcases initCheck_cases W hb vb with h | h <;> rw [h]
    · dsimp only
      split <;> simp
    · simp
  · rfl
  · have h1 : npBool (some [1]) = .ok true := by
      rw [npBool, if_neg one_ne_zero]
    unfold gaussianRBMInit initCheck
    simp [pyAny, h1, pyIsNone, List.replicate]

/-- C8: saving a model and loading the produced record into any model
state reproduces the saved W, h_bias, v_bias, num_hidden, num_visible
and the three diagnostic histories, while v_sigma — absent from the
record — is whatever the receiving state held. -/
theorem C8_roundtrip (s t : GaussianRBMFields) (r : RBMRecord)
    (h : save_configuration s = .ok r) :
    (load_configuration t r).W = s.W ∧
    (load_configuration t r).h_bias = s.h_bias ∧
    (load_configuration t r).v_bias = s.v_bias ∧
    (load_configuration t r).num_hidden = s.num_hidden ∧
    (load_configuration t r).num_visible = s.num_visible ∧
    (load_configuration t r).costs = s.costs ∧
    (load_configuration t r).train_free_energies = s.train_free_energies ∧
    (load_configuration t r).validation_free_energies =
      s.validation_free_energies ∧
    (load_configuration t r).v_sigma = t.v_sigma := by
  rcases hW : s.W with _ | w
  · simp only [save_configuration, hW] at h
    exact Except.noConfusion h
  · rcases hhb : s.h_bias with _ | hb
    · simp only [save_configuration, hW, hhb] at h
      exact Except.noConfusion h
    · rcases hvb : s.v_bias with _ | vb
      · simp only [save_configuration, hW, hhb, hvb] at h
        exact Except.noConfusion h
      · simp only [save_configuration, hW, hhb, hvb, Except.ok.injEq] at h
        subst h
        simp [load_configuration, hW, hhb, hvb]

/-- Concrete saved state for the round-trip witness. -/
def c8state : GaussianRBMFields :=
  { num_visible := 2
    num_hidden := 1
    W := some [[0]]
    h_bias := some [0]
    v_bias := some [0, 0]
    v_sigma := some [1, 1]
    costs := [1]
    train_free_energies := []
    validation_free_energies := []
    last_velocity := 0 }

/-- Unrelated receiving state with different shapes and v_sigma. -/
def c8other : GaussianRBMFields :=
  { num_visible := 5
    num_hidden := 7
    W := Option.none
    h_bias := Option.none
    v_bias := Option.none
    v_sigma := some [3]
    costs := []
    train_free_energies := [9]
    validation_free_energies := []
    last_velocity := 0 }

/-- The record save_configuration produces from c8state. -/
def c8record : RBMRecord :=
  { W := [[0]]
    h_bias := [0]
    v_bias := [0, 0]
    num_hidden := 1
    num_visible := 2
    costs := [1]
    train_free_energies := []
    validation_free_energies := [] }

/-- C8 witness: the round trip at the concrete states. -/
theorem C8_roundtrip_witness :
    (load_configuration c8other c8record).W = c8state.W ∧
    (load_configuration c8other c8record).h_bias = c8state.h_bias ∧
    (load_configuration c8other c8record).v_bias = c8state.v_bias ∧
    (load_configuration c8other c8record).num_hidden = c8state.num_hidden ∧
    (load_configuration c8other c8record).num_visible = c8state.num_visible ∧
    (load_configuration c8other c8record).costs = c8state.costs ∧
    (load_configuration c8other c8record).train_free_energies =
      c8state.train_free_energies ∧
    (load_configuration c8other c8record).validation_free_energies =
      c8state.validation_free_energies ∧
    (load_configuration c8other c8record).v_sigma = c8other.v_sigma :=
  C8_roundtrip c8state c8other c8record rfl
